import Mathlib

/-!
Verification development for the tornado-calculator repository
(single source file `src/app.py`, a heating-deficit calculator).

Shallow embedding conventions:
* Python numbers (ints and floats) that only ever undergo exact field
  arithmetic are modelled as rationals (`ℚ`); the envelope-loss part,
  which calls `math.sqrt`, is modelled over the reals (`ℝ`).
* `dict`s are association lists; Python's `d[k]` (which raises `KeyError`
  on a missing key) is modelled as an `Option`-returning lookup, with the
  whole computation returning `none` where the Python code would raise;
  `d.get(k, default)` is modelled as `(lookup ...).getD default`.
* Python's `round(x, d)` (round-half-to-even) is modelled exactly on `ℚ`.
* Python's `sorted` (a stable sort) is modelled by `List.insertionSort`
  with the non-strict lexicographic key order, which is likewise stable.
-/

namespace TornadoCalc

/-- A catalog entry, from `load_heat_exchangers` in `src/app.py`
(fields `model`, `power` (kW), `air_flow` (m³/h), `price`, `type`). -/
structure CatalogUnit where
  model : String
  power : ℚ
  air_flow : ℚ
  price : ℚ
  type : String
deriving DecidableEq

/-- The fixed catalog returned by `load_heat_exchangers` (src/app.py lines 19-27). -/
def load_heat_exchangers : List CatalogUnit :=
  [⟨"Торнадо 3", 20, 1330, 65000, "торнадо"⟩,
   ⟨"Торнадо 4", 33, 2670, 85000, "торнадо"⟩,
   ⟨"Торнадо 5", 55, 4500, 120000, "торнадо"⟩,
   ⟨"Торнадо 10", 240, 9000, 280000, "торнадо"⟩]

/-- Wall-material conductivities, `MATERIALS` (src/app.py lines 30-37). -/
def MATERIALS : List (String × ℚ) :=
  [("кирпич", 0.7), ("газоблок", 0.18), ("пеноблок", 0.16),
   ("керамзитоблок", 0.4), ("сэндвич панель", 0.05), ("брус", 0.15)]

/-- U-values, `U_VALUES` (src/app.py lines 40-52). -/
def U_VALUES : List (String × ℚ) :=
  [("окно_одинарное", 5.0), ("окно_двойное", 2.9), ("окно_тройное", 1.5),
   ("окно_евро", 1.3), ("дверь_деревянная", 2.0), ("дверь_металлическая", 1.5),
   ("дверь_утепленная", 0.8), ("пол_неутепленный", 0.5), ("пол_утепленный", 0.2),
   ("потолок_неутепленный", 0.6), ("потолок_утепленный", 0.25)]

/-- Per-section radiator coefficients, `SECTION_COEFF` (src/app.py lines 55-58). -/
def SECTION_COEFF : List (String × List (ℕ × ℚ)) :=
  [("алюминиевые", [(350, 2.4), (500, 3.2)]),
   ("чугунные", [(350, 1.8), (500, 2.6)])]

/-- Round-half-to-even to an integer, the rounding mode of Python's `round`. -/
def round_half_even (q : ℚ) : ℤ :=
  let f : ℤ := ⌊q⌋
  let r : ℚ := q - f
  if r < 1/2 then f
  else if 1/2 < r then f + 1
  else if 2 ∣ f then f else f + 1

/-- Python's `round(x, d)` on exact rationals. -/
def py_round (q : ℚ) (d : ℕ) : ℚ :=
  (round_half_even (q * 10 ^ d) : ℚ) / 10 ^ d

/-- `radiator_total_heat(sections_total, rad_type, height_mm, t_fluid_in, t_in)`
(src/app.py lines 74-82): coefficient looked up by (type, height) with
default 2.2, heat `sections * coeff * max(t_fluid_in - t_in, 0)`. -/
def radiator_total_heat (sections_total : ℚ) (rad_type : String) (height_mm : ℕ)
    (t_fluid_in t_in : ℚ) : ℚ :=
  if sections_total ≤ 0 then 0
  else
    let coeff : ℚ :=
      ((SECTION_COEFF.lookup rad_type).bind (fun d => d.lookup height_mm)).getD 2.2
    let delta := max (t_fluid_in - t_in) 0
    sections_total * coeff * delta

/-- A configuration record appended to `candidates` in `select_heat_exchangers`
(src/app.py lines 141-150).  `power_reserve` is the `power_reserve_%` key. -/
structure Config where
  model : String
  base_model : String
  units : ℕ
  power_kW : ℚ
  air_flow : ℚ
  air_exchange : ℚ
  power_reserve : ℚ
  price : ℚ
deriving DecidableEq

/-- One iteration of the double loop in `select_heat_exchangers`
(src/app.py lines 130-150): `none` models `continue`, `some c` models
`candidates.append(c)`. -/
def consider (required_kw room_volume : ℚ) (prefer_type : String) (n : ℕ)
    (u : CatalogUnit) : Option Config :=
  if prefer_type ≠ "все" ∧ u.type ≠ prefer_type then none
  else
    let total_power := u.power * n
    let total_air := u.air_flow * n
    if required_kw ≤ 0 then none
    else
      let power_margin := total_power / required_kw
      let air_exchange := total_air / max room_volume 1
      if 1.15 ≤ power_margin ∧ 2.5 ≤ air_exchange ∧ air_exchange ≤ 7.0 then
        some
          { model := toString n ++ " × " ++ u.model
            base_model := u.model
            units := n
            power_kW := total_power
            air_flow := total_air
            air_exchange := py_round air_exchange 2
            power_reserve := py_round ((total_power - required_kw) / required_kw * 100) 1
            price := u.price * n }
      else none

/-- The sort key of src/app.py line 152: `key=lambda x: (x['price'], abs(x['power_reserve_%']))`,
as the non-strict lexicographic order used by the stable sort. -/
def sort_key_le (a b : Config) : Prop :=
  a.price < b.price ∨ (a.price = b.price ∧ |a.power_reserve| ≤ |b.power_reserve|)

instance : DecidableRel sort_key_le := fun a b => by
  unfold sort_key_le; infer_instance

instance : IsTotal Config sort_key_le where
  total a b := by
    unfold sort_key_le
    rcases lt_trichotomy a.price b.price with h | h | h
    · exact Or.inl (Or.inl h)
    · rcases le_total |a.power_reserve| |b.power_reserve| with h2 | h2
      · exact Or.inl (Or.inr ⟨h, h2⟩)
      · exact Or.inr (Or.inr ⟨h.symm, h2⟩)
    · exact Or.inr (Or.inl h)

instance : IsTrans Config sort_key_le where
  trans a b c hab hbc := by
    unfold sort_key_le at *
    rcases hab with h1 | ⟨h1, h1'⟩
    · rcases hbc with h2 | ⟨h2, _⟩
      · exact Or.inl (h1.trans h2)
      · exact Or.inl (h2 ▸ h1)
    · rcases hbc with h2 | ⟨h2, h2'⟩
      · exact Or.inl (h1 ▸ h2)
      · exact Or.inr ⟨h1.trans h2, h1'.trans h2'⟩

/-- `select_heat_exchangers(required_kw, room_volume, prefer_type, max_units)`
(src/app.py lines 123-153): `range(1, max_units+1)` is `List.range' 1 max_units`,
the appended candidates are collected by `filterMap`, and the final
`sorted(candidates, key=...)` is the stable insertion sort on the key order. -/
def select_heat_exchangers (required_kw room_volume : ℚ) (prefer_type : String)
    (max_units : ℕ) : List Config :=
  let candidates :=
    (List.range' 1 max_units).flatMap fun n =>
      load_heat_exchangers.filterMap (consider required_kw room_volume prefer_type n)
  List.insertionSort sort_key_le candidates

/-- `infer_room_sides_from_area(area_m2, ratio)` (src/app.py lines 63-72):
footprint (1,1) for non-positive area, else width = sqrt(area/aspect),
length = area/width.  The Python float `math.sqrt` is modelled by `Real.sqrt`. -/
noncomputable def infer_room_sides_from_area (area_m2 aspect : ℝ) : ℝ × ℝ :=
  if area_m2 ≤ 0 then (1, 1)
  else
    let width := Real.sqrt (area_m2 / aspect)
    let length := area_m2 / width
    (length, width)

/-- The `params` dict handed to `calculate_heat_loss_by_components`
(src/app.py lines 263-277).  `aspect` is the source's `shape_ratio` key. -/
structure Params where
  area : ℝ
  height : ℝ
  aspect : ℝ
  wall_material : String
  wall_thickness : ℝ
  window_area : ℝ
  window_type : String
  door_area : ℝ
  door_type : String
  floor_insulated : Bool
  ceiling_insulated : Bool
  t_out : ℝ
  t_in : ℝ

/-- The values returned by `calculate_heat_loss_by_components`
(src/app.py line 121): the six `components` dict entries by name, their sum
`total`, plus `room_volume`, the inferred `(length_est, width_est)` and
`wall_area`. -/
structure LossResult where
  total : ℝ
  walls : ℝ
  windows : ℝ
  doors : ℝ
  floor : ℝ
  ceiling : ℝ
  infiltration : ℝ
  room_volume : ℝ
  length_est : ℝ
  width_est : ℝ
  wall_area : ℝ

/-- `floor_type` selection (src/app.py line 104). -/
def floor_key (p : Params) : String :=
  if p.floor_insulated then "пол_утепленный" else "пол_неутепленный"

/-- `ceiling_type` selection (src/app.py line 106). -/
def ceiling_key (p : Params) : String :=
  if p.ceiling_insulated then "потолок_утепленный" else "потолок_неутепленный"

/-- The arithmetic of `calculate_heat_loss_by_components` (src/app.py lines
84-121), with the four `U_VALUES` values already looked up (`uw` for the
window type, `ud` for the door type, `uf`/`uc` for the floor/ceiling keys);
the wall-material lookup keeps its in-line default 0.4 from line 101. -/
noncomputable def heat_loss_core (p : Params) (uw ud uf uc : ℚ) : LossResult :=
  let delta := max (p.t_in - p.t_out) 0
  let sides := infer_room_sides_from_area p.area p.aspect
  let perimeter := 2 * (sides.1 + sides.2)
  let wall_area := perimeter * p.height
  let wall_loss :=
    wall_area * (((MATERIALS.lookup p.wall_material).getD 0.4 : ℚ) / max p.wall_thickness 0.01) * delta
  let window_loss := p.window_area * (uw : ℝ) * delta
  let door_loss := p.door_area * (ud : ℝ) * delta
  let floor_loss := p.area * (uf : ℝ) * delta
  let ceiling_loss := p.area * (uc : ℝ) * delta
  let room_volume := p.area * p.height
  let infiltration_loss := room_volume * 0.3 * 1.2 * 1005 * delta / 3600
  { total := wall_loss + window_loss + door_loss + floor_loss + ceiling_loss + infiltration_loss
    walls := wall_loss
    windows := window_loss
    doors := door_loss
    floor := floor_loss
    ceiling := ceiling_loss
    infiltration := infiltration_loss
    room_volume := room_volume
    length_est := sides.1
    width_est := sides.2
    wall_area := wall_area }

/-- `calculate_heat_loss_by_components(params)` (src/app.py lines 84-121).
The direct dict indexings `U_VALUES[params['window_type']]` and
`U_VALUES[params['door_type']]` (lines 102-103) raise `KeyError` on an
unknown key; together with the internally-built floor/ceiling keys they are
modelled as `Option` lookups, `none` standing for the raised error. -/
noncomputable def calculate_heat_loss_by_components (p : Params) : Option LossResult :=
  match U_VALUES.lookup p.window_type, U_VALUES.lookup p.door_type,
      U_VALUES.lookup (floor_key p), U_VALUES.lookup (ceiling_key p) with
  | some uw, some ud, some uf, some uc => some (heat_loss_core p uw ud uf uc)
  | _, _, _, _ => none

/-- Modelled from the spec: the Unit Power Corrector of spec §4.3 is absent from
`src/app.py` (the repository's other program variants are not under `src/`).
Per the spec's words: nominalΔT = nominalFluidTemp − nominalAirTemp,
actualΔT = fluidTemp − airTemp; if either ΔT ≤ 0 the unit contributes zero
power, otherwise correctedPower = nominalPower · (actualΔT / nominalΔT)^1.2. -/
noncomputable def unit_power_corrected (nominalPower nominalFluid nominalAir
    fluidTemp airTemp : ℝ) : ℝ :=
  let nominalDT := nominalFluid - nominalAir
  let actualDT := fluidTemp - airTemp
  if actualDT ≤ 0 ∨ nominalDT ≤ 0 then 0
  else nominalPower * (actualDT / nominalDT) ^ (1.2 : ℝ)

/-- Modelled from the spec: `computeOutletTemperature` of spec §4.5 is absent from
`src/app.py`.  Per the spec's words: if flow ≤ 0 the outlet equals the inlet;
otherwise outlet = inlet − power·1000 / (massFlow · specificHeat) with
massFlow = volumetricFlow · density / 3600 (density 980 kg/m³,
specific heat 4186 J/(kg·°C), fixed fluid constants). -/
def compute_outlet_temperature (power_kw flow_m3h inlet : ℚ) : ℚ :=
  if flow_m3h ≤ 0 then inlet
  else
    let mass_flow := flow_m3h * 980 / 3600
    inlet - power_kw * 1000 / (mass_flow * 4186)

/-- Modelled from the spec: `recommendFlow` of spec §4.5 is absent from
`src/app.py`.  Per the spec's words: if power ≤ 0 the recommended flow is 0;
otherwise it is the volumetric flow achieving the target temperature drop,
i.e. the inverse of the outlet-temperature formula. -/
def recommend_flow (power_kw target_drop : ℚ) : ℚ :=
  if power_kw ≤ 0 then 0
  else power_kw * 1000 * 3600 / (980 * 4186 * target_drop)

/-- The nominal catalog power of the model named `m` (0 for an unknown model);
used to state that the search credits raw catalog power. -/
def catalog_power (m : String) : ℚ :=
  ((load_heat_exchangers.find? (fun u => u.model == m)).map CatalogUnit.power).getD 0

/-- The configuration `1 × Торнадо 5` produced by
`select_heat_exchangers 40 1000 "торнадо" 4`, used as a concrete test input. -/
def cfgT5 : Config :=
  { model := "1 × Торнадо 5", base_model := "Торнадо 5", units := 1,
    power_kW := 55, air_flow := 4500, air_exchange := 9/2,
    power_reserve := 75/2, price := 120000 }

/-- A concrete valid parameter set (area 100 m², height 6 m, brick walls,
euro windows, insulated door, t_out = −20, t_in = 18). -/
noncomputable def pLoss : Params :=
  { area := 100, height := 6, aspect := 1, wall_material := "кирпич",
    wall_thickness := 1, window_area := 5, window_type := "окно_евро",
    door_area := 2, door_type := "дверь_утепленная", floor_insulated := true,
    ceiling_insulated := true, t_out := -20, t_in := 18 }

/-- A concrete parameter set whose window type is not a `U_VALUES` key. -/
noncomputable def pBadWindow : Params :=
  { area := 20, height := 3, aspect := 1, wall_material := "кирпич",
    wall_thickness := 1, window_area := 1, window_type := "окно_несуществующее",
    door_area := 1, door_type := "дверь_деревянная", floor_insulated := true,
    ceiling_insulated := true, t_out := 0, t_in := 20 }

/-- A concrete parameter set with an unknown wall material but known
window and door types. -/
noncomputable def pBadMaterial : Params :=
  { area := 4, height := 3, aspect := 1, wall_material := "саман",
    wall_thickness := 1, window_area := 1, window_type := "окно_двойное",
    door_area := 1, door_type := "дверь_деревянная", floor_insulated := false,
    ceiling_insulated := false, t_out := -10, t_in := 20 }

/-- A concrete parameter set with equal indoor and outdoor temperatures. -/
noncomputable def pZeroDelta : Params :=
  { area := 50, height := 4, aspect := 2, wall_material := "брус",
    wall_thickness := 1, window_area := 3, window_type := "окно_тройное",
    door_area := 2, door_type := "дверь_металлическая", floor_insulated := false,
    ceiling_insulated := true, t_out := 18, t_in := 18 }

/-- `pZeroDelta` with the climate changed to t_out = 0, t_in = 20
(temperature difference 20 instead of 0); all other fields identical. -/
noncomputable def pWarmDelta : Params :=
  { area := 50, height := 4, aspect := 2, wall_material := "брус",
    wall_thickness := 1, window_area := 3, window_type := "окно_тройное",
    door_area := 2, door_type := "дверь_металлическая", floor_insulated := false,
    ceiling_insulated := true, t_out := 0, t_in := 20 }

/-! Helper lemmas. -/

theorem pairwise_imp_of_mem {α : Type} {R S : α → α → Prop} {l : List α}
    (h : ∀ a b, a ∈ l → b ∈ l → R a b → S a b) (hp : l.Pairwise R) : l.Pairwise S := by
  induction l with
  | nil => exact List.Pairwise.nil
  | cons x xs ih =>
    rcases List.pairwise_cons.mp hp with ⟨hx, hxs⟩
    refine List.pairwise_cons.mpr ⟨fun b hb => ?_, ?_⟩
    · exact h x b (List.mem_cons_self x xs) (List.mem_cons_of_mem x hb) (hx b hb)
    · exact ih (fun a b ha hb => h a b (List.mem_cons_of_mem x ha) (List.mem_cons_of_mem x hb)) hxs

theorem round_half_even_ge (q : ℚ) : q - 1/2 ≤ (round_half_even q : ℚ) := by
  have h0 : (⌊q⌋ : ℚ) ≤ q := Int.floor_le q
  have h1 : q < ⌊q⌋ + 1 := Int.lt_floor_add_one q
  simp only [round_half_even]
  split_ifs with hr hr2 he
  · linarith
  · push_cast; linarith
  · linarith
  · push_cast; linarith

theorem mem_select {required_kw room_volume : ℚ} {pt : String} {mu : ℕ} {c : Config}
    (hc : c ∈ select_heat_exchangers required_kw room_volume pt mu) :
    ∃ n u, u ∈ load_heat_exchangers ∧ consider required_kw room_volume pt n u = some c := by
  simp only [select_heat_exchangers, List.mem_insertionSort, List.mem_flatMap,
    List.mem_filterMap] at hc
  obtain ⟨n, _, u, hu, hcons⟩ := hc
  exact ⟨n, u, hu, hcons⟩

theorem consider_eq_some {required_kw room_volume : ℚ} {pt : String} {n : ℕ}
    {u : CatalogUnit} {c : Config}
    (h : consider required_kw room_volume pt n u = some c) :
    0 < required_kw ∧
    1.15 ≤ u.power * n / required_kw ∧
    2.5 ≤ u.air_flow * n / max room_volume 1 ∧
    u.air_flow * n / max room_volume 1 ≤ 7.0 ∧
    c = { model := toString n ++ " × " ++ u.model, base_model := u.model, units := n,
          power_kW := u.power * n, air_flow := u.air_flow * n,
          air_exchange := py_round (u.air_flow * n / max room_volume 1) 2,
          power_reserve := py_round ((u.power * n - required_kw) / required_kw * 100) 1,
          price := u.price * n } := by
  simp only [consider] at h
  split_ifs at h with h1 h2 h3
  exact ⟨not_le.mp h2, h3.1, h3.2.1, h3.2.2, (Option.some.inj h).symm⟩

theorem reserve_pos {required_kw room_volume : ℚ} {pt : String} {mu : ℕ} {c : Config}
    (hc : c ∈ select_heat_exchangers required_kw room_volume pt mu) :
    0 < c.power_reserve := by
  obtain ⟨n, u, hu, hcons⟩ := mem_select hc
  obtain ⟨hreq, hmargin, -, -, rfl⟩ := consider_eq_some hcons
  have hx : (15:ℚ) ≤ (u.power * n - required_kw) / required_kw * 100 := by
    have heq : (u.power * ↑n - required_kw) / required_kw = u.power * ↑n / required_kw - 1 := by
      rw [sub_div, div_self hreq.ne']
    rw [heq]
    have h115 : (1.15:ℚ) = 23/20 := by norm_num
    rw [h115] at hmargin
    linarith
  have hr := round_half_even_ge ((u.power * ↑n - required_kw) / required_kw * 100 * 10 ^ 1)
  show 0 < py_round ((u.power * ↑n - required_kw) / required_kw * 100) 1
  unfold py_round
  apply div_pos
  · have : (150:ℚ) ≤ (u.power * ↑n - required_kw) / required_kw * 100 * 10 ^ 1 := by
      norm_num; linarith
    linarith
  · norm_num

/-! Concrete evaluation of `select_heat_exchangers 40 1000 "торнадо" 1`:
of the four catalog units at count 1, only `Торнадо 5` passes the dual
feasibility test (Торнадо 3 and 4 fail the power margin, Торнадо 10 the
air-exchange upper bound). -/

theorem considerT3_eval :
    consider 40 1000 "торнадо" 1 ⟨"Торнадо 3", 20, 1330, 65000, "торнадо"⟩ = none := by
  norm_num [consider]

theorem considerT4_eval :
    consider 40 1000 "торнадо" 1 ⟨"Торнадо 4", 33, 2670, 85000, "торнадо"⟩ = none := by
  norm_num [consider]

theorem considerT5_eval :
    consider 40 1000 "торнадо" 1 ⟨"Торнадо 5", 55, 4500, 120000, "торнадо"⟩ = some cfgT5 := by
  norm_num [consider, cfgT5, py_round, round_half_even]
  decide

theorem considerT10_eval :
    consider 40 1000 "торнадо" 1 ⟨"Торнадо 10", 240, 9000, 280000, "торнадо"⟩ = none := by
  norm_num [consider]

theorem select_eval :
    select_heat_exchangers 40 1000 "торнадо" 1 = [cfgT5] := by
  simp [select_heat_exchangers, load_heat_exchangers, List.range',
    considerT3_eval, considerT4_eval, considerT5_eval, considerT10_eval,
    List.insertionSort]

theorem cfgT5_mem : cfgT5 ∈ select_heat_exchangers 40 1000 "торнадо" 1 := by
  rw [select_eval]
  exact List.mem_singleton.mpr rfl

/-! Claim theorems. -/

/-- C1 counterexample: the configuration search credits raw catalog nominal
power, not temperature-corrected power.  The configuration `1 × Торнадо 5`
returned by `select_heat_exchangers` is credited 55 kW, while the spec's
unit-power correction at actual fluid temperature 70 °C and actual air
temperature 70 °C (actual ΔT = 0 ≤ 0, nominal pair (90, 15)) credits zero
power, so the credited power is not the corrected power. -/
theorem select_power_ignores_temperature_cx :
    cfgT5 ∈ select_heat_exchangers 40 1000 "торнадо" 1 ∧
    cfgT5.power_kW = 55 ∧ cfgT5.units = 1 ∧
    unit_power_corrected 55 90 15 70 70 = 0 ∧
    ((cfgT5.power_kW : ℝ) ≠ (cfgT5.units : ℝ) * unit_power_corrected 55 90 15 70 70) := by
  have hz : unit_power_corrected 55 90 15 70 70 = 0 := by
    simp only [unit_power_corrected]
    rw [if_pos (Or.inl (by norm_num))]
  refine ⟨cfgT5_mem, rfl, rfl, hz, ?_⟩
  rw [hz, mul_zero]
  show ((55:ℚ) : ℝ) ≠ 0
  norm_num

/-- C1 (amended): for every unit count and catalog unit, the configuration
search credits a configuration with the raw catalog nominal power of its base
model times the unit count (`power_kW = unit.power * n`, src/app.py line 134);
no temperature correction is applied. -/
theorem select_power_is_raw_nominal (required_kw room_volume : ℚ) (pt : String)
    (mu : ℕ) (c : Config)
    (hc : c ∈ select_heat_exchangers required_kw room_volume pt mu) :
    c.power_kW = catalog_power c.base_model * c.units := by
  obtain ⟨n, u, hu, hcons⟩ := mem_select hc
  obtain ⟨-, -, -, -, rfl⟩ := consider_eq_some hcons
  have hcp : catalog_power u.model = u.power := by
    fin_cases hu <;> rfl
  show u.power * n = catalog_power u.model * n
  rw [hcp]

/-- C1 witness: the configuration `1 × Торнадо 5` from
`select_heat_exchangers 40 1000 "торнадо" 1` satisfies the raw-power law. -/
theorem select_power_is_raw_nominal_witness :
    cfgT5.power_kW = catalog_power cfgT5.base_model * cfgT5.units :=
  select_power_is_raw_nominal 40 1000 "торнадо" 1 cfgT5 cfgT5_mem

/-- C2: for every positive net requirement, every configuration returned by
`select_heat_exchangers` satisfies the dual feasibility constraint:
power margin `power_kW / required_kw ≥ 1.15` and air exchange
`air_flow / max(room_volume, 1)` within `[2.5, 7.0]` (src/app.py line 140). -/
theorem select_feasibility_invariant (required_kw room_volume : ℚ) (pt : String)
    (mu : ℕ) (c : Config) (_hreq : 0 < required_kw)
    (hc : c ∈ select_heat_exchangers required_kw room_volume pt mu) :
    1.15 ≤ c.power_kW / required_kw ∧
    2.5 ≤ c.air_flow / max room_volume 1 ∧ c.air_flow / max room_volume 1 ≤ 7.0 := by
  obtain ⟨n, u, hu, hcons⟩ := mem_select hc
  obtain ⟨-, h1, h2, h3, rfl⟩ := consider_eq_some hcons
  exact ⟨h1, h2, h3⟩

/-- C2 witness: the configuration `1 × Торнадо 5` returned for requirement
40 kW and room volume 1000 m³ satisfies both constraints. -/
theorem select_feasibility_invariant_witness :
    1.15 ≤ cfgT5.power_kW / 40 ∧
    2.5 ≤ cfgT5.air_flow / max 1000 1 ∧ cfgT5.air_flow / max 1000 1 ≤ 7.0 :=
  select_feasibility_invariant 40 1000 "торнадо" 1 cfgT5 (by norm_num) cfgT5_mem

/-- C3: for every net requirement ≤ 0, `select_heat_exchangers` returns the
empty list (the loop body hits `continue` at src/app.py line 136 for every
candidate). -/
theorem select_empty_of_nonpositive_requirement (required_kw room_volume : ℚ)
    (pt : String) (mu : ℕ) (h : required_kw ≤ 0) :
    select_heat_exchangers required_kw room_volume pt mu = [] := by
  have hnone : ∀ n : ℕ, consider required_kw room_volume pt n = fun _ => none := by
    intro n
    funext u
    simp only [consider]
    split_ifs with h1 <;> rfl
  simp only [select_heat_exchangers]
  have hcand : ((List.range' 1 mu).flatMap fun n =>
      load_heat_exchangers.filterMap (consider required_kw room_volume pt n)) = [] := by
    simp [hnone]
  rw [hcand]
  rfl

/-- C3 witness: requirement 0 yields the empty list. -/
theorem select_empty_of_nonpositive_requirement_witness :
    select_heat_exchangers 0 100 "все" 3 = [] :=
  select_empty_of_nonpositive_requirement 0 100 "все" 3 le_rfl

/-- C4: for every input, the list returned by `select_heat_exchangers` is
sorted ascending by price, ties broken by ascending power reserve: for every
adjacent pair (a, b), `price a ≤ price b`, and if the prices are equal then
`power_reserve a ≤ power_reserve b` (src/app.py lines 151-153; the sort key
is `(price, abs(power_reserve))`, and every surviving reserve is positive). -/
theorem select_sorted_by_price_then_reserve (required_kw room_volume : ℚ)
    (pt : String) (mu : ℕ) :
    List.Chain'
      (fun a b => a.price ≤ b.price ∧ (a.price = b.price → a.power_reserve ≤ b.power_reserve))
      (select_heat_exchangers required_kw room_volume pt mu) := by
  have hs : List.Sorted sort_key_le (select_heat_exchangers required_kw room_volume pt mu) := by
    simp only [select_heat_exchangers]
    exact List.sorted_insertionSort sort_key_le _
  refine List.Pairwise.chain' (pairwise_imp_of_mem ?_ hs)
  intro a b ha hb hab
  have hpa := reserve_pos ha
  have hpb := reserve_pos hb
  rcases hab with hlt | ⟨heq, habs⟩
  · exact ⟨le_of_lt hlt, fun he => absurd he (ne_of_lt hlt)⟩
  · refine ⟨le_of_eq heq, fun _ => ?_⟩
    rwa [abs_of_pos hpa, abs_of_pos hpb] at habs

/-- C5 counterexample: the claim says no lookup raises an error for an unknown
key, but for a parameter set whose window type is not a `U_VALUES` key the
loss calculation raises `KeyError` (modelled as `none`), because src/app.py
line 102 indexes `U_VALUES[params['window_type']]` directly with no default. -/
theorem heat_loss_unknown_window_errors_cx :
    calculate_heat_loss_by_components pBadWindow = none := rfl

/-- C5 (amended): the wall-material lookup falls back to the default
conductivity 0.4 and the radiator (type, height) lookup falls back to the
default coefficient 2.2 for unknown keys, and the internally-built
floor/ceiling keys always resolve — but the window-type and door-type
lookups are direct indexings that fail on unknown keys, so the calculation
returns a value only when those two keys are present. -/
theorem lookup_fallback_partial (p : Params) (uw ud uf uc : ℚ) (s : ℚ) (rt : String)
    (rh : ℕ) (tf ti : ℚ)
    (hw : U_VALUES.lookup p.window_type = some uw)
    (hd : U_VALUES.lookup p.door_type = some ud)
    (hf : U_VALUES.lookup (floor_key p) = some uf)
    (hc : U_VALUES.lookup (ceiling_key p) = some uc)
    (hmat : MATERIALS.lookup p.wall_material = none)
    (hrad : (SECTION_COEFF.lookup rt).bind (fun d => d.lookup rh) = none)
    (hs : 0 < s) :
    calculate_heat_loss_by_components p = some (heat_loss_core p uw ud uf uc) ∧
    (heat_loss_core p uw ud uf uc).walls =
      (heat_loss_core p uw ud uf uc).wall_area *
        (((0.4 : ℚ) : ℝ) / max p.wall_thickness 0.01) * max (p.t_in - p.t_out) 0 ∧
    radiator_total_heat s rt rh tf ti = s * 2.2 * max (tf - ti) 0 := by
  refine ⟨?_, ?_, ?_⟩
  · simp only [calculate_heat_loss_by_components, hw, hd, hf, hc]
  · simp only [heat_loss_core, hmat, Option.getD_none]
  · simp only [radiator_total_heat, hrad, Option.getD_none]
    rw [if_neg (not_le.mpr hs)]

/-- C5 witness: unknown wall material `саман` and unknown radiator type
`стальные` both fall back to their defaults while the computation still
returns a value. -/
theorem lookup_fallback_partial_witness :
    calculate_heat_loss_by_components pBadMaterial =
      some (heat_loss_core pBadMaterial 2.9 2.0 0.5 0.6) ∧
    (heat_loss_core pBadMaterial 2.9 2.0 0.5 0.6).walls =
      (heat_loss_core pBadMaterial 2.9 2.0 0.5 0.6).wall_area *
        (((0.4 : ℚ) : ℝ) / max pBadMaterial.wall_thickness 0.01) *
        max (pBadMaterial.t_in - pBadMaterial.t_out) 0 ∧
    radiator_total_heat 5 "стальные" 400 60 20 = 5 * 2.2 * max (60 - 20) 0 :=
  lookup_fallback_partial pBadMaterial 2.9 2.0 0.5 0.6 5 "стальные" 400 60 20
    rfl rfl rfl rfl rfl rfl (by norm_num)

/-- C6: the envelope loss calculator implements exactly the six-component
model: with ΔT = max(t_in − t_out, 0), wallLoss = wallArea · (conductivity /
max(thickness, 0.01)) · ΔT with wallArea = 2(length+width)·height from the
inferred footprint; window/door/floor/ceiling losses are area · U · ΔT;
infiltrationLoss = (area·height) · 0.3 · 1.2 · 1005 · ΔT / 3600; and the
returned total is the sum of the six components (src/app.py lines 84-121). -/
theorem envelope_six_component_model (p : Params) (uw ud uf uc : ℚ)
    (hw : U_VALUES.lookup p.window_type = some uw)
    (hd : U_VALUES.lookup p.door_type = some ud)
    (hf : U_VALUES.lookup (floor_key p) = some uf)
    (hc : U_VALUES.lookup (ceiling_key p) = some uc) :
    calculate_heat_loss_by_components p = some (heat_loss_core p uw ud uf uc) ∧
    (heat_loss_core p uw ud uf uc).walls =
      (2 * ((infer_room_sides_from_area p.area p.aspect).1 +
            (infer_room_sides_from_area p.area p.aspect).2) * p.height) *
        (((MATERIALS.lookup p.wall_material).getD 0.4 : ℚ) / max p.wall_thickness 0.01) *
        max (p.t_in - p.t_out) 0 ∧
    (heat_loss_core p uw ud uf uc).windows =
      p.window_area * (uw : ℝ) * max (p.t_in - p.t_out) 0 ∧
    (heat_loss_core p uw ud uf uc).doors =
      p.door_area * (ud : ℝ) * max (p.t_in - p.t_out) 0 ∧
    (heat_loss_core p uw ud uf uc).floor =
      p.area * (uf : ℝ) * max (p.t_in - p.t_out) 0 ∧
    (heat_loss_core p uw ud uf uc).ceiling =
      p.area * (uc : ℝ) * max (p.t_in - p.t_out) 0 ∧
    (heat_loss_core p uw ud uf uc).infiltration =
      (p.area * p.height) * 0.3 * 1.2 * 1005 * max (p.t_in - p.t_out) 0 / 3600 ∧
    (heat_loss_core p uw ud uf uc).total =
      (heat_loss_core p uw ud uf uc).walls + (heat_loss_core p uw ud uf uc).windows +
        (heat_loss_core p uw ud uf uc).doors + (heat_loss_core p uw ud uf uc).floor +
        (heat_loss_core p uw ud uf uc).ceiling + (heat_loss_core p uw ud uf uc).infiltration := by
  refine ⟨?_, rfl, rfl, rfl, rfl, rfl, rfl, rfl⟩
  simp only [calculate_heat_loss_by_components, hw, hd, hf, hc]

/-- C6 witness: the six-component decomposition at a concrete valid input. -/
theorem envelope_six_component_model_witness :
    calculate_heat_loss_by_components pLoss = some (heat_loss_core pLoss 1.3 0.8 0.2 0.25) ∧
    (heat_loss_core pLoss 1.3 0.8 0.2 0.25).walls =
      (2 * ((infer_room_sides_from_area pLoss.area pLoss.aspect).1 +
            (infer_room_sides_from_area pLoss.area pLoss.aspect).2) * pLoss.height) *
        (((MATERIALS.lookup pLoss.wall_material).getD 0.4 : ℚ) / max pLoss.wall_thickness 0.01) *
        max (pLoss.t_in - pLoss.t_out) 0 ∧
    (heat_loss_core pLoss 1.3 0.8 0.2 0.25).windows =
      pLoss.window_area * ((1.3 : ℚ) : ℝ) * max (pLoss.t_in - pLoss.t_out) 0 ∧
    (heat_loss_core pLoss 1.3 0.8 0.2 0.25).doors =
      pLoss.door_area * ((0.8 : ℚ) : ℝ) * max (pLoss.t_in - pLoss.t_out) 0 ∧
    (heat_loss_core pLoss 1.3 0.8 0.2 0.25).floor =
      pLoss.area * ((0.2 : ℚ) : ℝ) * max (pLoss.t_in - pLoss.t_out) 0 ∧
    (heat_loss_core pLoss 1.3 0.8 0.2 0.25).ceiling =
      pLoss.area * ((0.25 : ℚ) : ℝ) * max (pLoss.t_in - pLoss.t_out) 0 ∧
    (heat_loss_core pLoss 1.3 0.8 0.2 0.25).infiltration =
      (pLoss.area * pLoss.height) * 0.3 * 1.2 * 1005 * max (pLoss.t_in - pLoss.t_out) 0 / 3600 ∧
    (heat_loss_core pLoss 1.3 0.8 0.2 0.25).total =
      (heat_loss_core pLoss 1.3 0.8 0.2 0.25).walls +
        (heat_loss_core pLoss 1.3 0.8 0.2 0.25).windows +
        (heat_loss_core pLoss 1.3 0.8 0.2 0.25).doors +
        (heat_loss_core pLoss 1.3 0.8 0.2 0.25).floor +
        (heat_loss_core pLoss 1.3 0.8 0.2 0.25).ceiling +
        (heat_loss_core pLoss 1.3 0.8 0.2 0.25).infiltration :=
  envelope_six_component_model pLoss 1.3 0.8 0.2 0.25 rfl rfl rfl rfl

/-- C7: the radiator contribution is 0 for sections ≤ 0, and otherwise
sections · coefficient · max(fluidTemp − indoorTemp, 0) with the coefficient
looked up by (type, height) defaulting to 2.2; in particular 50 aluminum
sections of height 500 mm at fluid 80 °C and indoor 18 °C give 9920 W
(src/app.py lines 74-82). -/
theorem radiator_heat_formula (s : ℚ) (rt : String) (rh : ℕ) (tf ti : ℚ) :
    (s ≤ 0 → radiator_total_heat s rt rh tf ti = 0) ∧
    (0 < s → radiator_total_heat s rt rh tf ti =
      s * (((SECTION_COEFF.lookup rt).bind (fun d => d.lookup rh)).getD 2.2) *
        max (tf - ti) 0) ∧
    radiator_total_heat 50 "алюминиевые" 500 80 18 = 9920 := by
  refine ⟨fun h => ?_, fun h => ?_, ?_⟩
  · simp [radiator_total_heat, h]
  · simp only [radiator_total_heat]
    rw [if_neg (not_le.mpr h)]
  · have hmax : max ((80:ℚ) - 18) 0 = 62 := by
      rw [max_eq_left] <;> norm_num
    have hlk : (SECTION_COEFF.lookup "алюминиевые").bind (fun d => d.lookup 500) =
        some (3.2 : ℚ) := rfl
    have hval : radiator_total_heat 50 "алюминиевые" 500 80 18 =
        50 * (3.2 : ℚ) * max (80 - 18) 0 := by
      simp only [radiator_total_heat, hlk, Option.getD_some]
      rw [if_neg (by norm_num : ¬(50:ℚ) ≤ 0)]
    rw [hval, hmax]
    norm_num

/-- C7 witness: both branches at concrete inputs. -/
theorem radiator_heat_formula_witness :
    radiator_total_heat (-1) "алюминиевые" 500 80 18 = 0 ∧
    radiator_total_heat 50 "алюминиевые" 500 80 18 =
      50 * (((SECTION_COEFF.lookup "алюминиевые").bind (fun d => d.lookup 500)).getD 2.2) *
        max (80 - 18) 0 :=
  ⟨(radiator_heat_formula (-1) "алюминиевые" 500 80 18).1 (by norm_num),
   (radiator_heat_formula 50 "алюминиевые" 500 80 18).2.1 (by norm_num)⟩

/-- C8: when the indoor temperature is at or below the outdoor temperature,
the envelope loss calculator returns total 0 and all six components 0
(src/app.py lines 94-120: ΔT is clamped to 0). -/
theorem envelope_zero_delta_all_zero (p : Params) (uw ud uf uc : ℚ)
    (h : p.t_in ≤ p.t_out) :
    (heat_loss_core p uw ud uf uc).total = 0 ∧
    (heat_loss_core p uw ud uf uc).walls = 0 ∧
    (heat_loss_core p uw ud uf uc).windows = 0 ∧
    (heat_loss_core p uw ud uf uc).doors = 0 ∧
    (heat_loss_core p uw ud uf uc).floor = 0 ∧
    (heat_loss_core p uw ud uf uc).ceiling = 0 ∧
    (heat_loss_core p uw ud uf uc).infiltration = 0 := by
  have hδ : max (p.t_in - p.t_out) 0 = 0 := max_eq_right (by linarith)
  refine ⟨?_, ?_, ?_, ?_, ?_, ?_, ?_⟩ <;> simp [heat_loss_core, hδ]

/-- C8 witness: equal indoor and outdoor temperatures (18 °C each). -/
theorem envelope_zero_delta_all_zero_witness :
    (heat_loss_core pZeroDelta 1.5 1.5 0.5 0.6).total = 0 ∧
    (heat_loss_core pZeroDelta 1.5 1.5 0.5 0.6).walls = 0 ∧
    (heat_loss_core pZeroDelta 1.5 1.5 0.5 0.6).windows = 0 ∧
    (heat_loss_core pZeroDelta 1.5 1.5 0.5 0.6).doors = 0 ∧
    (heat_loss_core pZeroDelta 1.5 1.5 0.5 0.6).floor = 0 ∧
    (heat_loss_core pZeroDelta 1.5 1.5 0.5 0.6).ceiling = 0 ∧
    (heat_loss_core pZeroDelta 1.5 1.5 0.5 0.6).infiltration = 0 :=
  envelope_zero_delta_all_zero pZeroDelta 1.5 1.5 0.5 0.6 (le_of_eq rfl)

/-- C9: for two inputs identical except for the climate, with a strictly
larger clamped temperature difference, every loss component whose
area/coefficient factor is positive is strictly larger (src/app.py
lines 94-110: each component is that factor times ΔT). -/
theorem envelope_loss_strict_mono_in_delta (p q : Params) (uw ud uf uc : ℚ)
    (h1 : q.area = p.area) (h2 : q.height = p.height) (h3 : q.aspect = p.aspect)
    (h4 : q.wall_material = p.wall_material) (h5 : q.wall_thickness = p.wall_thickness)
    (h6 : q.window_area = p.window_area) (h7 : q.window_type = p.window_type)
    (h8 : q.door_area = p.door_area) (h9 : q.door_type = p.door_type)
    (h10 : q.floor_insulated = p.floor_insulated)
    (h11 : q.ceiling_insulated = p.ceiling_insulated)
    (hδ : max (p.t_in - p.t_out) 0 < max (q.t_in - q.t_out) 0) :
    (0 < (heat_loss_core p uw ud uf uc).wall_area *
        (((MATERIALS.lookup p.wall_material).getD 0.4 : ℚ) / max p.wall_thickness 0.01) →
      (heat_loss_core p uw ud uf uc).walls < (heat_loss_core q uw ud uf uc).walls) ∧
    (0 < p.window_area * (uw : ℝ) →
      (heat_loss_core p uw ud uf uc).windows < (heat_loss_core q uw ud uf uc).windows) ∧
    (0 < p.door_area * (ud : ℝ) →
      (heat_loss_core p uw ud uf uc).doors < (heat_loss_core q uw ud uf uc).doors) ∧
    (0 < p.area * (uf : ℝ) →
      (heat_loss_core p uw ud uf uc).floor < (heat_loss_core q uw ud uf uc).floor) ∧
    (0 < p.area * (uc : ℝ) →
      (heat_loss_core p uw ud uf uc).ceiling < (heat_loss_core q uw ud uf uc).ceiling) ∧
    (0 < p.area * p.height →
      (heat_loss_core p uw ud uf uc).infiltration <
        (heat_loss_core q uw ud uf uc).infiltration) := by
  obtain ⟨pa, ph, pas, pwm, pwt, pwa, pwtp, pda, pdtp, pfi, pci, pto, pti⟩ := p
  obtain ⟨qa, qh, qas, qwm, qwt, qwa, qwtp, qda, qdtp, qfi, qci, qto, qti⟩ := q
  dsimp only at h1 h2 h3 h4 h5 h6 h7 h8 h9 h10 h11 hδ ⊢
  subst h1 h2 h3 h4 h5 h6 h7 h8 h9 h10 h11
  simp only [heat_loss_core]
  refine ⟨fun hf => ?_, fun hf => ?_, fun hf => ?_, fun hf => ?_, fun hf => ?_, fun hf => ?_⟩
  · exact mul_lt_mul_of_pos_left hδ hf
  · exact mul_lt_mul_of_pos_left hδ hf
  · exact mul_lt_mul_of_pos_left hδ hf
  · exact mul_lt_mul_of_pos_left hδ hf
  · exact mul_lt_mul_of_pos_left hδ hf
  · have hG := mul_pos (mul_pos (mul_pos hf (by norm_num : (0:ℝ) < 0.3))
      (by norm_num : (0:ℝ) < 1.2)) (by norm_num : (0:ℝ) < 1005)
    exact div_lt_div_of_pos_right (mul_lt_mul_of_pos_left hδ hG)
      (by norm_num : (0:ℝ) < 3600)

/-- C9 witness: the window component strictly increases from the zero-ΔT
input to the 20-degree-ΔT input. -/
theorem envelope_loss_strict_mono_in_delta_witness :
    (heat_loss_core pZeroDelta 1.5 1.5 0.5 0.6).windows <
      (heat_loss_core pWarmDelta 1.5 1.5 0.5 0.6).windows := by
  refine (envelope_loss_strict_mono_in_delta pZeroDelta pWarmDelta 1.5 1.5 0.5 0.6
    rfl rfl rfl rfl rfl rfl rfl rfl rfl rfl rfl ?_).2.1 ?_
  · show max ((18:ℝ) - 18) 0 < max ((20:ℝ) - 0) 0
    rw [sub_self, max_self, sub_zero, max_eq_left (by norm_num : (0:ℝ) ≤ 20)]
    norm_num
  · show (0:ℝ) < 3 * ((1.5:ℚ) : ℝ)
    norm_num

/-- C10: the derived-quantity calculators handle degenerate inputs by
identity/zero: the outlet-temperature calculator with flow ≤ 0 returns the
inlet unchanged, and the recommended-flow calculator with power ≤ 0
returns 0 (spec §4.5; modelled from the spec, absent from src/app.py). -/
theorem derived_calculators_degenerate_inputs (power_kw flow_m3h inlet target_drop : ℚ) :
    (flow_m3h ≤ 0 → compute_outlet_temperature power_kw flow_m3h inlet = inlet) ∧
    (power_kw ≤ 0 → recommend_flow power_kw target_drop = 0) := by
  constructor
  · intro h
    simp [compute_outlet_temperature, h]
  · intro h
    simp [recommend_flow, h]

/-- C10 witness: zero flow returns the inlet; zero power recommends zero flow. -/
theorem derived_calculators_degenerate_inputs_witness :
    compute_outlet_temperature 12 0 70 = 70 ∧ recommend_flow 0 20 = 0 :=
  ⟨(derived_calculators_degenerate_inputs 12 0 70 20).1 le_rfl,
   (derived_calculators_degenerate_inputs 0 5 70 20).2 le_rfl⟩

end TornadoCalc
